import Mathlib

/-!
Shallow embedding of the `ghl-conversation-export` service, covering the
pieces of the code that the verified properties talk about:

* the cursor-pagination loops of `src/services/conversations.js`
  (both revisions present in the repository: the earlier one trusts the
  upstream `nextPage` flag, the later one uses a cursor-unchanged guard),
* transcription lookup and attachment (`fetchTranscription`, stage 3 of
  `fetchContactHistory`) and the final chronological sort,
* the date-range filter and the job bookkeeping of `src/index.js`
  (`runExport`, `cleanupJobs`, the status route),
* the PDF layout pass of `src/services/pdf.js` (second revision, the one
  with `bufferPages` and `addPageNumbers`).

Network calls are modelled by passing the upstream's responses as
functions (`page`, `lookup`); JavaScript exceptions become `Except`;
JavaScript `undefined`/falsy-string handling is made explicit through
`Option String` plus the `truthyS`/`jsOr`/`jsNorm` helpers; timestamps
(`dateAdded`, `Date.now()`) are epoch milliseconds as `Int`.  The
while-loops of the paginated fetchers are given explicit fuel: a result
`none` means the loop was still running when the fuel ran out.
PDFKit text metrics and locale date formatting are external to the code
under verification and enter as parameters of `RenderEnv`.
-/

/-- JavaScript truthiness of a possibly-absent string: `undefined`/`null`
and the empty string are falsy. -/
def truthyS : Option String → Bool
  | none => false
  | some s => s != ""

/-- JavaScript `a || b` on possibly-absent strings. -/
def jsOr (a b : Option String) : Option String :=
  if truthyS a then a else b

/-- Collapse a falsy string value to `none` (models `v || null`, and the
`if (v)`-guarded uses of a value). -/
def jsNorm (a : Option String) : Option String :=
  if truthyS a then a else none

/-- JavaScript truthiness of a possibly-absent number (`0` is falsy). -/
def truthyI : Option Int → Bool
  | none => false
  | some n => n != 0

/-- Comma insertion walk over the reversed decimal digits: after every
third digit a comma is emitted. -/
def commaGroupRev : List Char → Nat → List Char
  | [], _ => []
  | c :: rest, 3 => ',' :: c :: commaGroupRev rest 1
  | c :: rest, k => c :: commaGroupRev rest (k + 1)

/-- `Number.prototype.toLocaleString` for a non-negative integer in the
en-US locale: digits grouped in threes by commas. -/
def toLocaleStringNat (n : Nat) : String :=
  String.mk (commaGroupRev (toString n).toList.reverse 0).reverse

/-- An attachment reference: either a bare URL string or an object with
optional `name`/`url` fields. -/
inductive Attachment where
  | str (s : String)
  | obj (name : Option String) (url : Option String)
deriving DecidableEq, Repr

/-- One fetched message, with the fields the exporter reads.  Optional
fields model properties that may be absent from the upstream JSON. -/
structure Message where
  id : String
  dateAdded : Int
  messageType : Option String := none
  type : Option String := none
  contentType : Option String := none
  direction : Option String := none
  status : Option String := none
  callStatus : Option String := none
  callDuration : Option Int := none
  body : Option String := none
  text : Option String := none
  message : Option String := none
  html : Option String := none
  subject : Option String := none
  «from» : Option String := none
  «to» : Option String := none
  transcription : Option String := none
  attachments : List Attachment := []
deriving DecidableEq, Repr

/-- A conversation summary as returned by `/conversations/search`; only
the fields the pagination code reads. -/
structure Conv where
  id : Option String := none
  lastMessageId : Option String := none
deriving DecidableEq, Repr

/-- Response envelope of `/conversations/search` as read by the first
(flag-trusting) revision of `fetchAllConversations`. -/
structure ConvRespV1 where
  conversations : Option (List Conv) := none
  nextPage : Bool := false
deriving Repr

/-- Response envelope of `/conversations/search` as read by the second
(cursor-guard) revision of `fetchAllConversations`. -/
structure ConvRespV2 where
  conversations : Option (List Conv) := none
  lastMessageId : Option String := none
deriving Repr

/-- The `messages` field of a `/conversations/:id/messages` response as
the second revision of `fetchAllMessages` tolerates it: a plain array,
an object wrapping a `messages` array, or anything else (treated as an
empty batch). -/
inductive MessagesField where
  | missing
  | arr (items : List Message)
  | wrapped (items : List Message)
deriving Repr

/-- Batch extraction
`Array.isArray(data.messages) ? data.messages : data.messages?.messages ? data.messages.messages : []`. -/
def MessagesField.batch : MessagesField → List Message
  | .missing => []
  | .arr l => l
  | .wrapped l => l

/-- Response envelope of the messages endpoint as read by the first
revision of `fetchAllMessages`. -/
structure MsgRespV1 where
  messages : Option (List Message) := none
  nextPage : Bool := false
  lastMessageId : Option String := none
deriving Repr

/-- Response envelope of the messages endpoint as read by the second
revision of `fetchAllMessages`. -/
structure MsgRespV2 where
  messages : MessagesField := .missing
  lastMessageId : Option String := none
deriving Repr

/-! ## Pagination loops

Each loop takes the upstream as a function `page` from the (normalised)
`lastMessageId` query parameter to the response, explicit fuel, the
current cursor and the accumulator.  `none` = fuel exhausted with the
loop still running. -/

/-- `fetchAllConversations`, first revision (`src/services/conversations.js`
lines 14–46): stops on an empty batch or a falsy `data.nextPage`;
otherwise takes `batch.last.lastMessageId || batch.last.id` as the next
cursor unconditionally. -/
def fetchAllConversationsV1 (page : Option String → ConvRespV1) :
    Nat → Option String → List Conv → Option (List Conv)
  | 0, _, _ => none
  | fuel + 1, cur, acc =>
    let data := page (jsNorm cur)
    let batch := data.conversations.getD []
    let acc2 := acc ++ batch
    if batch.isEmpty || !data.nextPage then some acc2
    else
      match batch.getLast? with
      | none => some acc2
      | some last =>
        fetchAllConversationsV1 page fuel (jsOr last.lastMessageId last.id) acc2

/-- `fetchAllMessages`, first revision (lines 51–80): stops on an empty
batch or a falsy `data.nextPage`; next cursor
`data.lastMessageId || batch.last.id`. -/
def fetchAllMessagesV1 (page : Option String → MsgRespV1) :
    Nat → Option String → List Message → Option (List Message)
  | 0, _, _ => none
  | fuel + 1, cur, acc =>
    let data := page (jsNorm cur)
    let batch := data.messages.getD []
    let acc2 := acc ++ batch
    if batch.isEmpty || !data.nextPage then some acc2
    else
      match batch.getLast? with
      | none => some acc2
      | some last =>
        fetchAllMessagesV1 page fuel (jsOr data.lastMessageId (some last.id)) acc2

/-- Next-cursor extraction of the second revision of
`fetchAllConversations`:
`data.lastMessageId || batch.last?.lastMessageId || batch.last?.id`. -/
def convNextIdV2 (data : ConvRespV2) : Option String :=
  match (data.conversations.getD []).getLast? with
  | none => none
  | some last => jsOr data.lastMessageId (jsOr last.lastMessageId last.id)

/-- `fetchAllConversations`, second revision (lines 194–233): stops on an
empty batch, a falsy derived cursor, or a derived cursor equal to the
previous one. -/
def fetchAllConversationsV2 (page : Option String → ConvRespV2) :
    Nat → Option String → List Conv → Option (List Conv)
  | 0, _, _ => none
  | fuel + 1, cur, acc =>
    let data := page (jsNorm cur)
    let batch := data.conversations.getD []
    let acc2 := acc ++ batch
    if batch.isEmpty then some acc2
    else
      let nextId := convNextIdV2 data
      if !truthyS nextId || nextId == cur then some acc2
      else fetchAllConversationsV2 page fuel nextId acc2

/-- Next-cursor extraction of the second revision of `fetchAllMessages`:
`data.lastMessageId || batch.last?.id`. -/
def msgNextIdV2 (data : MsgRespV2) : Option String :=
  match data.messages.batch.getLast? with
  | none => none
  | some last => jsOr data.lastMessageId (some last.id)

/-- `fetchAllMessages`, second revision (lines 238–277): same
cursor-unchanged guard. -/
def fetchAllMessagesV2 (page : Option String → MsgRespV2) :
    Nat → Option String → List Message → Option (List Message)
  | 0, _, _ => none
  | fuel + 1, cur, acc =>
    let data := page (jsNorm cur)
    let batch := data.messages.batch
    let acc2 := acc ++ batch
    if batch.isEmpty then some acc2
    else
      let nextId := msgNextIdV2 data
      if !truthyS nextId || nextId == cur then some acc2
      else fetchAllMessagesV2 page fuel nextId acc2

/-! ### Cursor chains of the v2 loops -/

/-- The cursor the v2 conversations loop would derive from the page at
cursor `cur`, independent of whether the loop stops there. -/
def convRawNextV2 (page : Option String → ConvRespV2) (cur : Option String) :
    Option String :=
  convNextIdV2 (page (jsNorm cur))

/-- Iterated derived cursor of the v2 conversations loop, starting from
an arbitrary cursor. -/
def convIterFromV2 (page : Option String → ConvRespV2) :
    Nat → Option String → Option String
  | 0, cur => cur
  | n + 1, cur => convIterFromV2 page n (convRawNextV2 page cur)

/-- The v2 conversations loop stops at cursor `cur`: empty batch, falsy
derived cursor, or derived cursor equal to `cur`. -/
def convStopsV2 (page : Option String → ConvRespV2) (cur : Option String) :
    Bool :=
  ((page (jsNorm cur)).conversations.getD []).isEmpty
    || !truthyS (convRawNextV2 page cur)
    || convRawNextV2 page cur == cur

/-- Analogue of `convRawNextV2` for the v2 messages loop. -/
def msgRawNextV2 (page : Option String → MsgRespV2) (cur : Option String) :
    Option String :=
  msgNextIdV2 (page (jsNorm cur))

/-- Iterated derived cursor of the v2 messages loop. -/
def msgIterFromV2 (page : Option String → MsgRespV2) :
    Nat → Option String → Option String
  | 0, cur => cur
  | n + 1, cur => msgIterFromV2 page n (msgRawNextV2 page cur)

/-- The v2 messages loop stops at cursor `cur`. -/
def msgStopsV2 (page : Option String → MsgRespV2) (cur : Option String) :
    Bool :=
  (page (jsNorm cur)).messages.batch.isEmpty
    || !truthyS (msgRawNextV2 page cur)
    || msgRawNextV2 page cur == cur

/-! ## Transcription lookups and history aggregation (stage 3 and the sort) -/

/-- The error an `apiCall` rejection carries: `err.response?.status` (absent
for network-level failures) and `err.message`. -/
structure ApiErr where
  status : Option Nat := none
  message : String := ""
deriving DecidableEq, Repr

/-- Body of the recording endpoint response. -/
structure Recording where
  transcription : Option String := none
deriving DecidableEq, Repr

/-- `fetchTranscription` (`src/services/conversations.js` lines 85–100),
applied to the outcome of the upstream call for this message: a success
yields `data.transcription || null`; a failure with HTTP status 404 or
422 is converted to `null`; any other failure is re-thrown. -/
def fetchTranscription (resp : Except ApiErr Recording) :
    Except ApiErr (Option String) :=
  match resp with
  | .ok data => .ok (jsNorm data.transcription)
  | .error err =>
    if err.status == some 404 || err.status == some 422 then .ok none
    else .error err

/-- The stage-3 selection predicate:
`m.messageType === "CALL" && m.status === "completed" && m.direction`. -/
def isCompletedCall (m : Message) : Bool :=
  m.messageType == some "CALL" && m.status == some "completed"
    && truthyS m.direction

/-- Stage 3 of `fetchContactHistory` for one message of the accumulated
sequence: call messages get `msg.transcription = transcription` when the
lookup produced a truthy value, are left untouched when it produced
`null`, and abort the stage on any other lookup error; non-call messages
are not looked up at all. -/
def attachOne (lookup : String → Except ApiErr Recording) (m : Message) :
    Except ApiErr Message :=
  if isCompletedCall m then
    match fetchTranscription (lookup m.id) with
    | .error e => .error e
    | .ok (some t) => .ok { m with transcription := some t }
    | .ok none => .ok m
  else .ok m

/-- Stage 3 of `fetchContactHistory` (lines 141–165) over the whole
accumulated sequence, aborting at the first non-recovered lookup error. -/
def attachTranscriptions (lookup : String → Except ApiErr Recording) :
    List Message → Except ApiErr (List Message)
  | [] => .ok []
  | m :: rest =>
    match attachOne lookup m with
    | .error e => .error e
    | .ok m2 =>
      match attachTranscriptions lookup rest with
      | .error e => .error e
      | .ok rest2 => .ok (m2 :: rest2)

/-- Comparison used by the final sort:
`(a, b) => new Date(a.dateAdded) - new Date(b.dateAdded)` — ascending by
timestamp; `Array.prototype.sort` is stable. -/
def dateLe (a b : Message) : Bool :=
  a.dateAdded ≤ b.dateAdded

/-- Step 4 of `fetchContactHistory` (lines 167–172): stable ascending
sort of the accumulated messages by `dateAdded`. -/
def sortMessages (messages : List Message) : List Message :=
  messages.mergeSort dateLe

/-- Stages 3–4 of `fetchContactHistory`, starting from the accumulated
message sequence `allMessages` produced by stages 1–2 (the pagination
loops above): attach transcriptions, then sort chronologically. -/
def fetchContactHistoryFrom (lookup : String → Except ApiErr Recording)
    (allMessages : List Message) : Except ApiErr (List Message) :=
  match attachTranscriptions lookup allMessages with
  | .error e => .error e
  | .ok msgs => .ok (sortMessages msgs)

/-! ## Date filter and `runExport` (`src/index.js`) -/

/-- Contact display data supplied at export start. -/
structure Contact where
  name : Option String := none
  email : Option String := none
  phone : Option String := none
deriving DecidableEq, Repr

/-- An optional calendar date range.  A calendar date is modelled as a
day index; see `dayStartMs`. -/
structure DateRange where
  startDate : Option Nat := none
  endDate : Option Nat := none
deriving DecidableEq, Repr

/-- Epoch milliseconds of `startDate` at 00:00:00.000 (what
`new Date(dateRange.startDate)` followed by `setHours(0,0,0,0)`
computes for day index `d`). -/
def dayStartMs (d : Nat) : Int := 86400000 * d

/-- Epoch milliseconds of `endDate` at 23:59:59.999 (what
`setHours(23,59,59,999)` computes). -/
def dayEndMs (d : Nat) : Int := dayStartMs d + 86399999

/-- The date filter of `runExport` (`src/index.js` lines 252–262): two
independent `Array.prototype.filter` passes, one per present bound. -/
def filterByDateRange (range : DateRange) (messages : List Message) :
    List Message :=
  let messages :=
    match range.startDate with
    | none => messages
    | some sd => messages.filter (fun m => decide (dayStartMs sd ≤ m.dateAdded))
  match range.endDate with
  | none => messages
  | some ed => messages.filter (fun m => decide (m.dateAdded ≤ dayEndMs ed))

/-- The retention predicate of the date filter, both bounds folded into
one test (used to state properties of `filterByDateRange`). -/
def inDateRange (range : DateRange) (m : Message) : Bool :=
  (match range.startDate with
   | none => true
   | some sd => decide (dayStartMs sd ≤ m.dateAdded)) &&
  (match range.endDate with
   | none => true
   | some ed => decide (m.dateAdded ≤ dayEndMs ed))

/-- `safeName`: `(contact.name || "export").replace(/[^a-zA-Z0-9_-]/g, "_")`. -/
def sanitizeName (s : String) : String :=
  s.map (fun c => if c.isAlphanum || c == '_' || c == '-' then c else '_')

/-- Terminal job fields written by `runExport`. -/
structure JobResult where
  status : String
  error : Option String := none
  filename : Option String := none
  totalMessages : Nat := 0
deriving DecidableEq, Repr

/-- `runExport` (`src/index.js` lines 241–288), as a function of the
aggregator's outcome and of the PDF generation outcome (the two await
points that can throw): on any exception the job becomes `failed` with
the captured message, otherwise the date filter runs, the artifact name
is derived and the job completes. -/
def runExport (hist : Except ApiErr (List Message)) (contact : Contact)
    (range : DateRange) (jobId : String) (pdfError : Option String) :
    JobResult :=
  match hist with
  | .error e => { status := "failed", error := some e.message }
  | .ok msgs =>
    let messages := filterByDateRange range msgs
    let safeName := sanitizeName ((jsOr contact.name (some "export")).getD "export")
    let filename := safeName ++ "_" ++ (jobId.take 8) ++ ".pdf"
    match pdfError with
    | some pe => { status := "failed", error := some pe }
    | none =>
      { status := "complete", filename := some filename,
        totalMessages := messages.length }

/-! ## Job store and reaper (`src/index.js` lines 15–50, 292–316) -/

/-- Retention window: one hour in milliseconds. -/
def JOB_TTL_MS : Int := 60 * 60 * 1000

/-- One job record of the in-memory registry. -/
structure Job where
  id : String
  contactId : String := ""
  locationId : String := ""
  status : String := "processing"
  createdAt : Int := 0
  filePath : Option String := none
  filename : Option String := none
  error : Option String := none
deriving DecidableEq, Repr

/-- The artifact unlink of the reaper:
`if (job.filePath && fs.existsSync(job.filePath)) fs.unlinkSync(job.filePath)`;
the file system is the list of existing paths. -/
def reapFile (fs : List String) : Option String → List String
  | some p => if p != "" && fs.contains p then fs.filter (fun q => q != p) else fs
  | none => fs

/-- `cleanupJobs` (`src/index.js` lines 36–47): sweep the registry (in
iteration order), and for every job older than the retention window —
regardless of status — first unlink its PDF file if the path is truthy
and the file exists, then drop the record. -/
def cleanupJobs (now : Int) : List Job → List String → List Job × List String
  | [], fs => ([], fs)
  | j :: rest, fs =>
    if now - j.createdAt > JOB_TTL_MS then
      cleanupJobs now rest (reapFile fs j.filePath)
    else
      let r := cleanupJobs now rest fs
      (j :: r.1, r.2)

/-- The status route `GET /api/export/:jobId` (lines 292–303): 404 when
the job id is absent from the registry, otherwise a snapshot. -/
def getExportStatus (jobs : List Job) (jobId : String) :
    Except Nat (String × Option String × Option String) :=
  match jobs.find? (fun j => j.id == jobId) with
  | none => .error 404
  | some j => .ok (j.status, j.error, jsNorm j.filename)

/-! ## PDF rendering (`src/services/pdf.js`, second revision)

The geometry constants and page-break conditions are taken literally
from the source.  The heights PDFKit assigns to rendered text and to
`moveDown` gaps depend on font metrics external to the code under
verification; they enter through `RenderEnv`, as do locale date
formatting (`toLocaleDateString`/`toLocaleTimeString`) and the
`html-to-text` conversion.  A page is its content items in order plus
an optional footer; the content pass cannot write footers (only the
final `addPageNumbers` pass does, mirroring the `bufferPages` design). -/

def MARGIN : Nat := 50
def PAGE_HEIGHT : Nat := 792

/-- External rendering parameters: text metrics and library functions. -/
structure RenderEnv where
  textH : String → Nat
  moveH : Nat
  fmtDate : Int → String
  fmtTime : Int → String
  convertHtml : String → String
  exportDate : String

/-- A finished page: content plus the footer back-filled by
`addPageNumbers` (absent on the cover page). -/
structure Page where
  content : List String
  footer : Option String
deriving DecidableEq, Repr

/-- Document state during the content pass: completed pages, the current
page's content, and the cursor position `doc.y`. -/
structure Doc where
  done : List (List String)
  cur : List String
  y : Nat
deriving Repr

/-- A fresh PDFKit document: one empty page, cursor at the top margin. -/
def Doc.new : Doc := ⟨[], [], MARGIN⟩

/-- `doc.addPage()`: finish the current page, start an empty one. -/
def Doc.addPage (d : Doc) : Doc := ⟨d.done ++ [d.cur], [], MARGIN⟩

/-- `doc.text(s, ...)`: append `s` to the current page and advance the
cursor by the text's height. -/
def Doc.text (env : RenderEnv) (d : Doc) (s : String) : Doc :=
  ⟨d.done, d.cur ++ [s], d.y + env.textH s⟩

/-- `doc.moveDown(...)`: advance the cursor. -/
def Doc.moveDown (env : RenderEnv) (d : Doc) : Doc :=
  ⟨d.done, d.cur, d.y + env.moveH⟩

/-- All pages of the document, the current one included. -/
def Doc.pages (d : Doc) : List (List String) := d.done ++ [d.cur]

/-- `checkPageBreak` (pdf.js lines 1061–1067): start a new page when
fewer than `needed` points remain above the footer area. -/
def checkPageBreak (d : Doc) (needed : Nat) : Doc :=
  if d.y + needed > PAGE_HEIGHT - MARGIN - 30 then d.addPage else d

/-- `channelLabel` (lines 865–881): fixed map, `TYPE_`-prefix stripping
with underscores humanised, else the raw code or `"Message"` when the
code is falsy. -/
def channelLabel (type : Option String) : String :=
  match type with
  | none => "Message"
  | some t =>
    if t == "TYPE_SMS" then "SMS"
    else if t == "TYPE_EMAIL" then "Email"
    else if t == "TYPE_CALL" then "Call"
    else if t == "TYPE_WHATSAPP" then "WhatsApp"
    else if t == "TYPE_FB_MESSENGER" then "Facebook"
    else if t == "TYPE_IG_DM" then "Instagram"
    else if t == "TYPE_LIVE_CHAT" then "Live Chat"
    else if t == "TYPE_CUSTOM_SMS" then "SMS"
    else if t == "TYPE_CUSTOM_EMAIL" then "Email"
    else if t.startsWith "TYPE_" then ((t.drop 5).replace "_" " ")
    else if t == "" then "Message"
    else t

/-- `messageTypeLabel` (lines 883–888): `"Call"` for call messages, else
the first truthy channel label of `msg.type` / `msg.contentType`, else
`"Message"`. -/
def messageTypeLabel (m : Message) : String :=
  if m.messageType == some "CALL" then "Call"
  else
    let a := channelLabel m.type
    if a != "" then a
    else
      let b := channelLabel m.contentType
      if b != "" then b else "Message"

/-- `getMessageBody` (lines 1261–1263): `msg.body || msg.text || msg.message || ""`. -/
def getMessageBody (m : Message) : String :=
  (jsOr m.body (jsOr m.text m.message)).getD ""

/-- `formatDuration` (lines 857–863). -/
def formatDuration (seconds : Int) : String :=
  if seconds ≤ 0 then "0s"
  else
    let m := seconds / 60
    let s := seconds % 60
    if m == 0 then toString s ++ "s"
    else toString m ++ "m " ++ toString s ++ "s"

/-- First-seen-order deduplication (the `Set` insertion walk of
`getMessageStats`). -/
def dedupFirst (l : List String) : List String :=
  l.foldl (fun acc s => if acc.contains s then acc else acc ++ [s]) []

/-- Cover statistics record. -/
structure MessageStats where
  dateRange : String
  channels : List String
deriving DecidableEq, Repr

/-- `getMessageStats` (lines 1044–1059): `"N/A"` and no channels for an
empty sequence, otherwise first–last formatted dates and the distinct
channel labels in first-seen order. -/
def getMessageStats (env : RenderEnv) (messages : List Message) :
    MessageStats :=
  match messages with
  | [] => { dateRange := "N/A", channels := [] }
  | first :: _ =>
    let last := messages.getLastD first
    { dateRange := env.fmtDate first.dateAdded ++ " – " ++ env.fmtDate last.dateAdded,
      channels := dedupFirst (messages.map messageTypeLabel) }

/-- The `statsData` array rendered on the cover page (lines 1012–1016):
label/value pairs for total messages, date range and export date. -/
def coverStatsData (env : RenderEnv) (messages : List Message) :
    List (String × String) :=
  [("Total Messages", toLocaleStringNat messages.length),
   ("Date Range", (getMessageStats env messages).dateRange),
   ("Export Date", env.exportDate)]

/-- `renderCoverPage` (lines 942–1042): title, contact block, stats and
channel list, all written to the first page; never starts a new page and
never writes a footer. -/
def renderCoverPage (env : RenderEnv) (contact : Contact)
    (messages : List Message) (d : Doc) : Doc :=
  let d := d.moveDown env
  let d := d.text env "CONVERSATION EXPORT"
  let d := d.moveDown env
  let d := d.text env "Contact"
  let d := d.text env ((jsOr contact.name (some "Unknown Contact")).getD "")
  let d := d.moveDown env
  let d := if truthyS contact.email then
      (d.text env ("Email: " ++ contact.email.getD "")).moveDown env
    else d
  let d := if truthyS contact.phone then
      (d.text env ("Phone: " ++ contact.phone.getD "")).moveDown env
    else d
  let d := d.moveDown env
  let stats := getMessageStats env messages
  let d := (coverStatsData env messages).foldl
    (fun d lv => (((d.text env lv.1).text env lv.2).moveDown env)) d
  if stats.channels.length > 0 then
    (d.moveDown env).text env ("Channels: " ++ String.intercalate ", " stats.channels)
  else d

/-- `renderAttachments` (lines 1246–1259): one line per attachment,
named from the string's trailing path segment or `name || url || "attachment"`. -/
def renderAttachments (env : RenderEnv) (m : Message) (d : Doc) : Doc :=
  match m.attachments with
  | [] => d
  | atts =>
    let d := d.moveDown env
    atts.foldl
      (fun d att =>
        let name :=
          match att with
          | .str s => ((s.splitOn "/").getLastD "")
          | .obj n u => (jsOr n (jsOr u (some "attachment"))).getD ""
        d.text env ("📎 " ++ name))
      d

/-- `renderTextMessage` (lines 1126–1137): plain body, nothing at all
when the body is empty. -/
def renderTextMessage (env : RenderEnv) (m : Message) (d : Doc) : Doc :=
  let body := getMessageBody m
  if body == "" then d
  else renderAttachments env m (d.text env body)

/-- `renderEmailMessage` (lines 1139–1198): subject, from→to line, HTML
body converted to text with a 3000-character ceiling and an explicit
truncation marker. -/
def renderEmailMessage (env : RenderEnv) (m : Message) (d : Doc) : Doc :=
  let d := if truthyS m.subject then
      ((d.text env ("Subject: " ++ m.subject.getD "")).moveDown env)
    else d
  let d := if truthyS m.«from» || truthyS m.«to» then
      let fromTo := String.intercalate " → "
        (([m.«from», m.«to»].filter truthyS).map (fun o => o.getD ""))
      ((d.text env fromTo).moveDown env).moveDown env
    else d
  let body :=
    if truthyS m.html || truthyS m.body then env.convertHtml ((jsOr m.html m.body).getD "")
    else if truthyS m.text then m.text.getD ""
    else ""
  let d :=
    if body == "" then d
    else
      if body.length > 3000 then
        ((d.text env (body.take 3000)).moveDown env).text env
          "[Email truncated — full content exceeds display limit]"
      else d.text env body
  renderAttachments env m d

/-- `renderCallMessage` (lines 1200–1244): duration/status line, then the
quoted transcription with a 2000-character ceiling and an ellipsis on
truncation. -/
def renderCallMessage (env : RenderEnv) (m : Message) (d : Doc) : Doc :=
  let parts :=
    (if truthyI m.callDuration then
       ["Duration: " ++ formatDuration (m.callDuration.getD 0)] else [])
    ++ (if truthyS m.callStatus || truthyS m.status then
       ["Status: " ++ (jsOr m.callStatus m.status).getD ""] else [])
  let d := if parts.length > 0 then
      ((d.text env (String.intercalate "  |  " parts)).moveDown env)
    else d
  if truthyS m.transcription then
    let transcriptText := m.transcription.getD ""
    let d := ((d.text env "Transcription:").moveDown env)
    let truncated := transcriptText.length > 2000
    let displayText := if truncated then transcriptText.take 2000 else transcriptText
    d.text env ("\"" ++ displayText ++ (if truncated then "..." else "") ++ "\"")
  else d

/-- `renderMessage` (lines 1076–1124): estimated block height, page-break
check before emitting anything, separator gap (skipped for the first
block on a page), header line, then the channel-specific body. -/
def renderMessage (env : RenderEnv) (m : Message) (index : Nat) (d : Doc) :
    Doc :=
  let channel := messageTypeLabel m
  let bodyText := getMessageBody m
  let estimatedLines := (bodyText.length + 79) / 80 + 3
  let estimatedHeight := min (estimatedLines * 14 + 40) 200
  let d := checkPageBreak d estimatedHeight
  let d := if index > 0 && d.y > MARGIN + 10 then (d.moveDown env).moveDown env else d
  let dirLabel := if m.direction == some "outbound" then "→ OUTBOUND" else "← INBOUND"
  let header := "[" ++ dirLabel ++ "]  " ++ env.fmtDate m.dateAdded ++ "  "
    ++ env.fmtTime m.dateAdded ++ "  ·  " ++ channel
  let d := (d.text env header).moveDown env
  let d :=
    if m.messageType == some "CALL" || channel == "Call" then
      renderCallMessage env m d
    else if channel == "Email" then renderEmailMessage env m d
    else renderTextMessage env m d
  d.moveDown env

/-- `renderMessages` (lines 1069–1074). -/
def renderMessages (env : RenderEnv) : List Message → Nat → Doc → Doc
  | [], _, d => d
  | m :: rest, i, d => renderMessages env rest (i + 1) (renderMessage env m i d)

/-- The footer text written on body pages (line 1278). -/
def footerText (pageNum total : Nat) (exportDate : String) : String :=
  "Page " ++ toString pageNum ++ " of " ++ toString total
    ++ "  ·  Exported from GoHighLevel  ·  " ++ exportDate

/-- The indexed walk of `addPageNumbers` (lines 1265–1284): page `i`
gets footer "Page i+1 of total", except the cover page (index 0). -/
def addPageNumbersGo (total : Nat) (exportDate : String) :
    Nat → List (List String) → List Page
  | _, [] => []
  | i, c :: rest =>
    (if i == 0 then Page.mk c none
     else Page.mk c (some (footerText (i + 1) total exportDate)))
      :: addPageNumbersGo total exportDate (i + 1) rest

/-- `addPageNumbers`: buffered two-pass footer fill over all pages. -/
def addPageNumbers (env : RenderEnv) (pages : List (List String)) :
    List Page :=
  addPageNumbersGo pages.length env.exportDate 0 pages

/-- `generatePDF` (lines 907–940): cover page, then — only when there is
at least one message — a fresh page and the message flow, then the
footer pass. -/
def generatePDF (env : RenderEnv) (contact : Contact)
    (messages : List Message) : List Page :=
  let d := Doc.new
  let d := renderCoverPage env contact messages d
  let d :=
    if messages.length > 0 then renderMessages env messages 0 d.addPage
    else d
  addPageNumbers env d.pages

/-! ## Mock upstreams used as concrete test inputs

The mock of §8 of the spec: non-empty batches on every page, the
pagination flag always set, and a derived cursor that is constant from
the second page on. -/

/-- Conversations mock for the flag-trusting revision: `nextPage` is
always `true`, every batch is non-empty, the derived cursor is `"a"`,
then `"b"` forever. -/
def mockConvPageV1 : Option String → ConvRespV1
  | none => { conversations := some [{ id := some "a" }], nextPage := true }
  | some "a" => { conversations := some [{ id := some "b" }], nextPage := true }
  | _ => { conversations := some [{ id := some "b" }], nextPage := true }

/-- The same upstream behaviour seen through the cursor-guard revision's
response shape. -/
def mockConvPageV2 : Option String → ConvRespV2
  | none => { conversations := some [{ id := some "a" }] }
  | some "a" => { conversations := some [{ id := some "b" }] }
  | _ => { conversations := some [{ id := some "b" }] }

/-- Messages mock with the same constant-after-two-pages cursor. -/
def mockMsgPageV2 : Option String → MsgRespV2
  | none => { messages := .arr [{ id := "a", dateAdded := 1 }] }
  | some "a" => { messages := .arr [{ id := "b", dateAdded := 2 }] }
  | _ => { messages := .arr [{ id := "b", dateAdded := 2 }] }

/-- A completed inbound call message with no transcription field, used
as a concrete stage-3 input. -/
def mockCallMsg : Message :=
  { id := "call-1", dateAdded := 5, messageType := some "CALL",
    status := some "completed", direction := some "inbound" }

/-- Transcription lookup that fails with HTTP 404 for every message. -/
def mockLookup404 : String → Except ApiErr Recording :=
  fun _ => .error { status := some 404, message := "Request failed with status code 404" }

/-- Transcription lookup that fails with HTTP 500 for every message. -/
def mockLookup500 : String → Except ApiErr Recording :=
  fun _ => .error { status := some 500, message := "Request failed with status code 500" }

/-- Transcription lookup that succeeds but carries an empty-string
transcription value. -/
def mockLookupEmpty : String → Except ApiErr Recording :=
  fun _ => .ok { transcription := some "" }

/-- Transcription lookup that succeeds with a real transcript. -/
def mockLookupHello : String → Except ApiErr Recording :=
  fun _ => .ok { transcription := some "hello" }

/-- A concrete rendering environment: constant text metrics and fixed
formatting, enough to evaluate the layout pass on sample data. -/
def mockEnv : RenderEnv :=
  { textH := fun _ => 12, moveH := 6,
    fmtDate := fun _ => "Jan 1, 2024", fmtTime := fun _ => "9:00 AM",
    convertHtml := fun s => s, exportDate := "January 1, 2024" }

/-! ### The first revision of the PDF module (`pdf.js` lines 378–811)

Same cover and message-flow layout (its `renderCoverPage` and the
per-channel body renderers match the second revision's up to attachment
line format and header separators), but a fixed conservative block
height instead of an estimate, and — crucially — **no footer pass**:
`addPageNumbers` does not exist in this revision, `FOOTER_Y` is defined
but never used, and the document is emitted without page numbers. -/

/-- `renderAttachments` of the first revision: `[attachment: name]`. -/
def renderAttachmentsV1 (env : RenderEnv) (m : Message) (d : Doc) : Doc :=
  match m.attachments with
  | [] => d
  | atts =>
    let d := d.moveDown env
    atts.foldl
      (fun d att =>
        let name :=
          match att with
          | .str s => ((s.splitOn "/").getLastD "")
          | .obj n u => (jsOr n (jsOr u (some "attachment"))).getD ""
        d.text env ("[attachment: " ++ name ++ "]"))
      d

/-- `renderTextMessage` of the first revision. -/
def renderTextMessageV1 (env : RenderEnv) (m : Message) (d : Doc) : Doc :=
  let body := getMessageBody m
  if body == "" then d
  else renderAttachmentsV1 env m (d.text env body)

/-- `renderEmailMessage` of the first revision. -/
def renderEmailMessageV1 (env : RenderEnv) (m : Message) (d : Doc) : Doc :=
  let d := if truthyS m.subject then
      ((d.text env ("Subject: " ++ m.subject.getD "")).moveDown env)
    else d
  let d := if truthyS m.«from» || truthyS m.«to» then
      let fromTo := String.intercalate " → "
        (([m.«from», m.«to»].filter truthyS).map (fun o => o.getD ""))
      ((d.text env fromTo).moveDown env).moveDown env
    else d
  let body :=
    if truthyS m.html || truthyS m.body then env.convertHtml ((jsOr m.html m.body).getD "")
    else if truthyS m.text then m.text.getD ""
    else ""
  let d :=
    if body == "" then d
    else
      if body.length > 3000 then
        ((d.text env (body.take 3000)).moveDown env).text env
          "[Email truncated — full content exceeds display limit]"
      else d.text env body
  renderAttachmentsV1 env m d

/-- `renderCallMessage` of the first revision. -/
def renderCallMessageV1 (env : RenderEnv) (m : Message) (d : Doc) : Doc :=
  let parts :=
    (if truthyI m.callDuration then
       ["Duration: " ++ formatDuration (m.callDuration.getD 0)] else [])
    ++ (if truthyS m.callStatus || truthyS m.status then
       ["Status: " ++ (jsOr m.callStatus m.status).getD ""] else [])
  let d := if parts.length > 0 then
      ((d.text env (String.intercalate "  |  " parts)).moveDown env)
    else d
  if truthyS m.transcription then
    let transcriptText := m.transcription.getD ""
    let d := ((d.text env "Transcription:").moveDown env)
    let truncated := transcriptText.length > 2000
    let displayText := if truncated then transcriptText.take 2000 else transcriptText
    d.text env ("\"" ++ displayText ++ (if truncated then "..." else "") ++ "\"")
  else d

/-- `renderMessage` of the first revision (lines 632–671): fixed
conservative minimum height 60, header with `-` separator and plain
direction tags. -/
def renderMessageV1 (env : RenderEnv) (m : Message) (index : Nat) (d : Doc) :
    Doc :=
  let channel := messageTypeLabel m
  let d := checkPageBreak d 60
  let d := if index > 0 && d.y > MARGIN + 10 then (d.moveDown env).moveDown env else d
  let dirLabel := if m.direction == some "outbound" then "OUTBOUND" else "INBOUND"
  let header := "[" ++ dirLabel ++ "]   " ++ env.fmtDate m.dateAdded ++ "  "
    ++ env.fmtTime m.dateAdded ++ "  -  " ++ channel
  let d := (d.text env header).moveDown env
  let d :=
    if m.messageType == some "CALL" || channel == "Call" then
      renderCallMessageV1 env m d
    else if channel == "Email" then renderEmailMessageV1 env m d
    else renderTextMessageV1 env m d
  d.moveDown env

/-- `renderMessages` of the first revision. -/
def renderMessagesV1 (env : RenderEnv) : List Message → Nat → Doc → Doc
  | [], _, d => d
  | m :: rest, i, d => renderMessagesV1 env rest (i + 1) (renderMessageV1 env m i d)

/-- `generatePDF` of the first revision (lines 470–502): cover page, a
fresh page and the message flow when non-empty — and nothing else: no
footer pass exists, so the emitted pages carry no page numbers. -/
def generatePDFV1 (env : RenderEnv) (contact : Contact)
    (messages : List Message) : List (List String) :=
  let d := Doc.new
  let d := renderCoverPage env contact messages d
  let d :=
    if messages.length > 0 then renderMessagesV1 env messages 0 d.addPage
    else d
  d.pages

/-! ## C1 — pagination termination -/

/-- One unfolding of the v2 conversations loop at positive fuel. -/
theorem fetchAllConversationsV2_succ (page : Option String → ConvRespV2)
    (fuel : Nat) (cur : Option String) (acc : List Conv) :
    fetchAllConversationsV2 page (fuel + 1) cur acc =
      (let batch := (page (jsNorm cur)).conversations.getD []
       let acc2 := acc ++ batch
       if batch.isEmpty then some acc2
       else
         let nextId := convNextIdV2 (page (jsNorm cur))
         if !truthyS nextId || nextId == cur then some acc2
         else fetchAllConversationsV2 page fuel nextId acc2) := rfl

/-- One unfolding of the v2 messages loop at positive fuel. -/
theorem fetchAllMessagesV2_succ (page : Option String → MsgRespV2)
    (fuel : Nat) (cur : Option String) (acc : List Message) :
    fetchAllMessagesV2 page (fuel + 1) cur acc =
      (let batch := (page (jsNorm cur)).messages.batch
       let acc2 := acc ++ batch
       if batch.isEmpty then some acc2
       else
         let nextId := msgNextIdV2 (page (jsNorm cur))
         if !truthyS nextId || nextId == cur then some acc2
         else fetchAllMessagesV2 page fuel nextId acc2) := rfl

/-- If the v2 conversations loop's stop condition holds at the current
cursor, the loop returns on this iteration, whatever the fuel. -/
theorem convStopsV2_now (page : Option String → ConvRespV2)
    (cur : Option String) (acc : List Conv) (fuel : Nat)
    (h : convStopsV2 page cur = true) :
    ∃ l, fetchAllConversationsV2 page (fuel + 1) cur acc = some l := by
  rw [fetchAllConversationsV2_succ]
  unfold convStopsV2 convRawNextV2 at h
  by_cases hb : ((page (jsNorm cur)).conversations.getD []).isEmpty
  · refine ⟨acc ++ (page (jsNorm cur)).conversations.getD [], ?_⟩
    simp [hb]
  · simp only [Bool.not_eq_true] at hb
    simp only [hb, Bool.false_or] at h
    refine ⟨acc ++ (page (jsNorm cur)).conversations.getD [], ?_⟩
    simp [hb, h]

/-- If the stop condition is reached after `n` derived-cursor steps, fuel
`n + 1` suffices for the v2 conversations loop. -/
theorem convTermV2 (page : Option String → ConvRespV2) :
    ∀ (n : Nat) (cur : Option String) (acc : List Conv),
      convStopsV2 page (convIterFromV2 page n cur) = true →
      ∃ l, fetchAllConversationsV2 page (n + 1) cur acc = some l := by
  intro n
  induction n with
  | zero => intro cur acc h; exact convStopsV2_now page cur acc 0 h
  | succ n ih =>
    intro cur acc h
    rw [fetchAllConversationsV2_succ]
    by_cases hb : ((page (jsNorm cur)).conversations.getD []).isEmpty
    · refine ⟨acc ++ (page (jsNorm cur)).conversations.getD [], ?_⟩
      simp [hb]
    · simp only [Bool.not_eq_true] at hb
      by_cases hc : (!truthyS (convNextIdV2 (page (jsNorm cur)))
          || convNextIdV2 (page (jsNorm cur)) == cur) = true
      · refine ⟨acc ++ (page (jsNorm cur)).conversations.getD [], ?_⟩
        simp only [hb, Bool.false_eq_true, if_false, hc, if_true]
      · simp only [Bool.not_eq_true] at hc
        simp only [hb, Bool.false_eq_true, if_false, hc, if_false]
        exact ih (convNextIdV2 (page (jsNorm cur))) _ h

/-- Stop-now lemma for the v2 messages loop. -/
theorem msgStopsV2_now (page : Option String → MsgRespV2)
    (cur : Option String) (acc : List Message) (fuel : Nat)
    (h : msgStopsV2 page cur = true) :
    ∃ l, fetchAllMessagesV2 page (fuel + 1) cur acc = some l := by
  rw [fetchAllMessagesV2_succ]
  unfold msgStopsV2 msgRawNextV2 at h
  by_cases hb : (page (jsNorm cur)).messages.batch.isEmpty
  · refine ⟨acc ++ (page (jsNorm cur)).messages.batch, ?_⟩
    simp [hb]
  · simp only [Bool.not_eq_true] at hb
    simp only [hb, Bool.false_or] at h
    refine ⟨acc ++ (page (jsNorm cur)).messages.batch, ?_⟩
    simp [hb, h]

/-- Fuel `n + 1` suffices for the v2 messages loop once the stop
condition is reached after `n` derived-cursor steps. -/
theorem msgTermV2 (page : Option String → MsgRespV2) :
    ∀ (n : Nat) (cur : Option String) (acc : List Message),
      msgStopsV2 page (msgIterFromV2 page n cur) = true →
      ∃ l, fetchAllMessagesV2 page (n + 1) cur acc = some l := by
  intro n
  induction n with
  | zero => intro cur acc h; exact msgStopsV2_now page cur acc 0 h
  | succ n ih =>
    intro cur acc h
    rw [fetchAllMessagesV2_succ]
    by_cases hb : (page (jsNorm cur)).messages.batch.isEmpty
    · refine ⟨acc ++ (page (jsNorm cur)).messages.batch, ?_⟩
      simp [hb]
    · simp only [Bool.not_eq_true] at hb
      by_cases hc : (!truthyS (msgNextIdV2 (page (jsNorm cur)))
          || msgNextIdV2 (page (jsNorm cur)) == cur) = true
      · refine ⟨acc ++ (page (jsNorm cur)).messages.batch, ?_⟩
        simp only [hb, Bool.false_eq_true, if_false, hc, if_true]
      · simp only [Bool.not_eq_true] at hc
        simp only [hb, Bool.false_eq_true, if_false, hc, if_false]
        exact ih (msgNextIdV2 (page (jsNorm cur))) _ h

/-- Pushing one step of the derived-cursor iteration to the outside
(conversations loop). -/
theorem convIterFromV2_succ_out (page : Option String → ConvRespV2) :
    ∀ (n : Nat) (cur : Option String),
      convIterFromV2 page (n + 1) cur
        = convRawNextV2 page (convIterFromV2 page n cur) := by
  intro n
  induction n with
  | zero => intro cur; rfl
  | succ n ih =>
    intro cur
    show convIterFromV2 page (n + 1) (convRawNextV2 page cur) = _
    rw [ih (convRawNextV2 page cur)]
    rfl

/-- Pushing one step of the derived-cursor iteration to the outside
(messages loop). -/
theorem msgIterFromV2_succ_out (page : Option String → MsgRespV2) :
    ∀ (n : Nat) (cur : Option String),
      msgIterFromV2 page (n + 1) cur
        = msgRawNextV2 page (msgIterFromV2 page n cur) := by
  intro n
  induction n with
  | zero => intro cur; rfl
  | succ n ih =>
    intro cur
    show msgIterFromV2 page (n + 1) (msgRawNextV2 page cur) = _
    rw [ih (msgRawNextV2 page cur)]
    rfl

/-- C1 (amended): for the cursor-guard revision of the paginated fetch
loops (`fetchAllConversations` lines 194–233, `fetchAllMessages` lines
238–277), if the derived next-cursor chain stops changing after some
number of steps, both loops terminate — stopping as soon as the
extracted next-cursor is absent or equal to the previous cursor, even if
the upstream never signals end-of-pagination — and return the
accumulated items.  (The flag-trusting first revision does not have this
guarantee; see the counterexample.) -/
theorem c1_cursor_guard_pagination_terminates
    (pageC : Option String → ConvRespV2) (pageM : Option String → MsgRespV2)
    (nC nM : Nat)
    (hC : convIterFromV2 pageC (nC + 1) none = convIterFromV2 pageC nC none)
    (hM : msgIterFromV2 pageM (nM + 1) none = msgIterFromV2 pageM nM none) :
    (∃ l, fetchAllConversationsV2 pageC (nC + 1) none [] = some l) ∧
    (∃ l, fetchAllMessagesV2 pageM (nM + 1) none [] = some l) := by
  constructor
  · apply convTermV2
    have hfix : convRawNextV2 pageC (convIterFromV2 pageC nC none)
        = convIterFromV2 pageC nC none := by
      rw [← convIterFromV2_succ_out]; exact hC
    unfold convStopsV2
    simp [hfix]
  · apply msgTermV2
    have hfix : msgRawNextV2 pageM (msgIterFromV2 pageM nM none)
        = msgIterFromV2 pageM nM none := by
      rw [← msgIterFromV2_succ_out]; exact hM
    unfold msgStopsV2
    simp [hfix]

/-- C1 witness: the spec's mock upstream (constant cursor after two
pages, pagination flag always set, non-empty batches) satisfies the
stabilisation hypothesis at `n = 2`, and the cursor-guard loops return
all three accumulated batches with fuel 3. -/
theorem c1_cursor_guard_pagination_terminates_witness :
    (convIterFromV2 mockConvPageV2 3 none = convIterFromV2 mockConvPageV2 2 none) ∧
    (msgIterFromV2 mockMsgPageV2 3 none = msgIterFromV2 mockMsgPageV2 2 none) ∧
    ((∃ l, fetchAllConversationsV2 mockConvPageV2 3 none [] = some l) ∧
     (∃ l, fetchAllMessagesV2 mockMsgPageV2 3 none [] = some l)) :=
  ⟨by decide, by decide,
   c1_cursor_guard_pagination_terminates mockConvPageV2 mockMsgPageV2 2 2
     (by decide) (by decide)⟩

/-- C1 counterexample: against the very mock the claim describes (cursor
constant from page 2 on, `nextPage` always set, batches never empty) the
flag-trusting first revision of `fetchAllConversations` (lines 14–46) is
still looping after 12 pages — it does **not** stop when the extracted
next-cursor equals the previous cursor — while the cursor-guard revision
has already returned the three accumulated batches. -/
theorem c1_flag_variant_counterexample :
    fetchAllConversationsV1 mockConvPageV1 12 none [] = none ∧
    fetchAllConversationsV2 mockConvPageV2 12 none []
      = some [{ id := some "a" }, { id := some "b" }, { id := some "b" }] := by
  constructor
  · decide
  · decide

/-! ## C2 — transcription lookup error handling -/

/-- If some element of the sequence makes stage 3 fail, the whole
`attachTranscriptions` pass fails. -/
theorem attachTranscriptions_error_of_mem
    (lookup : String → Except ApiErr Recording) (msgs : List Message)
    (m : Message) (e : ApiErr) (hm : m ∈ msgs)
    (he : attachOne lookup m = .error e) :
    ∃ e2, attachTranscriptions lookup msgs = .error e2 := by
  induction msgs with
  | nil => cases hm
  | cons a rest ih =>
    rcases List.mem_cons.mp hm with rfl | hm2
    · refine ⟨e, ?_⟩
      simp [attachTranscriptions, he]
    · cases ha : attachOne lookup a with
      | error e3 =>
        refine ⟨e3, ?_⟩
        simp [attachTranscriptions, ha]
      | ok a2 =>
        rcases ih hm2 with ⟨e2, h2⟩
        refine ⟨e2, ?_⟩
        simp [attachTranscriptions, ha, h2]

/-- C2: in stage 3, a transcription lookup failing with HTTP 404 or 422
makes `fetchTranscription` return absent and leaves the call message
unchanged (no transcription field, no job failure); a lookup failing
with any other error aborts `attachTranscriptions`, the error propagates
out of the aggregator, and `runExport` marks the job `failed`. -/
theorem c2_transcription_error_handling
    (lookup : String → Except ApiErr Recording) (e : ApiErr) (m : Message)
    (hcall : isCompletedCall m = true) (herr : lookup m.id = .error e) :
    ((e.status == some 404 || e.status == some 422) = true →
      fetchTranscription (lookup m.id) = .ok none ∧
      attachOne lookup m = .ok m) ∧
    ((e.status == some 404 || e.status == some 422) = false →
      attachOne lookup m = .error e ∧
      ∀ (msgs : List Message) (contact : Contact) (range : DateRange)
        (jobId : String) (pdfError : Option String), m ∈ msgs →
        ∃ e2, attachTranscriptions lookup msgs = .error e2 ∧
          (runExport (fetchContactHistoryFrom lookup msgs)
              contact range jobId pdfError).status = "failed") := by
  constructor
  · intro h
    have hft : fetchTranscription (lookup m.id) = .ok none := by
      rw [herr]; simp [fetchTranscription, h]
    exact ⟨hft, by simp [attachOne, hcall, hft]⟩
  · intro h
    have hft : fetchTranscription (lookup m.id) = .error e := by
      rw [herr]; simp [fetchTranscription, h]
    have hao : attachOne lookup m = .error e := by
      simp [attachOne, hcall, hft]
    refine ⟨hao, ?_⟩
    intro msgs contact range jobId pdfError hmem
    rcases attachTranscriptions_error_of_mem lookup msgs m e hmem hao with ⟨e2, h2⟩
    refine ⟨e2, h2, ?_⟩
    simp [fetchContactHistoryFrom, h2, runExport]

/-- C2 witness: a 404 lookup leaves the concrete call message untouched
and produces no transcription; a 500 lookup aborts the stage and the
export job ends `failed`. -/
theorem c2_transcription_error_handling_witness :
    (fetchTranscription (mockLookup404 mockCallMsg.id) = .ok none ∧
      attachOne mockLookup404 mockCallMsg = .ok mockCallMsg) ∧
    (attachOne mockLookup500 mockCallMsg
        = .error { status := some 500, message := "Request failed with status code 500" } ∧
      ∃ e2, attachTranscriptions mockLookup500 [mockCallMsg] = .error e2 ∧
        (runExport (fetchContactHistoryFrom mockLookup500 [mockCallMsg])
            {} {} "job-1" none).status = "failed") :=
  ⟨(c2_transcription_error_handling mockLookup404
      { status := some 404, message := "Request failed with status code 404" }
      mockCallMsg (by decide) rfl).1 (by decide),
   (let h := (c2_transcription_error_handling mockLookup500
      { status := some 500, message := "Request failed with status code 500" }
      mockCallMsg (by decide) rfl).2 (by decide)
    ⟨h.1, h.2 [mockCallMsg] {} {} "job-1" none (by decide)⟩)⟩

/-! ## C3 — chronological stable sort -/

/-- The sort comparison is transitive. -/
theorem dateLe_trans (a b c : Message) (hab : dateLe a b = true)
    (hbc : dateLe b c = true) : dateLe a c = true := by
  simp [dateLe] at *
  omega

/-- The sort comparison is total. -/
theorem dateLe_total (a b : Message) : (dateLe a b || dateLe b a) = true := by
  simp [dateLe]
  omega

/-- C3: a successful aggregation returns the attach-stage sequence sorted
ascending by `dateAdded`; the sort is stable — for every timestamp the
messages carrying it appear in the same order as in the fetched
(pre-sort) sequence — so timestamps are non-decreasing along the
output. -/
theorem c3_aggregator_output_sorted_stable
    (lookup : String → Except ApiErr Recording) (msgs out : List Message)
    (h : fetchContactHistoryFrom lookup msgs = .ok out) :
    List.Pairwise (fun a b => a.dateAdded ≤ b.dateAdded) out ∧
    ∃ mid, attachTranscriptions lookup msgs = .ok mid ∧
      out = sortMessages mid ∧ out.Perm mid ∧
      ∀ t : Int, out.filter (fun m => m.dateAdded == t)
        = mid.filter (fun m => m.dateAdded == t) := by
  unfold fetchContactHistoryFrom at h
  cases ha : attachTranscriptions lookup msgs with
  | error e => rw [ha] at h; cases h
  | ok mid =>
    rw [ha] at h
    cases h
    have hsorted := List.sorted_mergeSort dateLe_trans dateLe_total mid
    refine ⟨?_, mid, rfl, rfl, List.mergeSort_perm mid dateLe, ?_⟩
    · exact hsorted.imp (fun hab => by simpa [dateLe] using hab)
    · intro t
      have hperm : (sortMessages mid).Perm mid := List.mergeSort_perm mid dateLe
      have hmemkey : ∀ x ∈ mid.filter (fun m => m.dateAdded == t),
          x.dateAdded = t := by
        intro x hx
        have := List.of_mem_filter hx
        simpa using this
      have hpair : (mid.filter (fun m => m.dateAdded == t)).Pairwise
          (fun a b => dateLe a b = true) := by
        apply List.pairwise_of_forall_mem_list
        intro a ha2 b hb2
        simp [dateLe, hmemkey a ha2, hmemkey b hb2]
      have hsub : (mid.filter (fun m => m.dateAdded == t)).Sublist
          (sortMessages mid) :=
        List.sublist_mergeSort dateLe_trans dateLe_total hpair
          (List.filter_sublist mid)
      have hfself : (mid.filter (fun m => m.dateAdded == t)).filter
          (fun m => m.dateAdded == t) = mid.filter (fun m => m.dateAdded == t) := by
        apply List.filter_eq_self.mpr
        intro x hx
        simp [hmemkey x hx]
      have hsub2 : (mid.filter (fun m => m.dateAdded == t)).Sublist
          ((sortMessages mid).filter (fun m => m.dateAdded == t)) := by
        rw [← hfself]
        exact hsub.filter _
      have hlen : ((sortMessages mid).filter (fun m => m.dateAdded == t)).length
          = (mid.filter (fun m => m.dateAdded == t)).length :=
        (hperm.filter _).length_eq
      exact (hsub2.eq_of_length hlen.symm).symm

/-- C3 witness: three plain messages fetched out of order, two sharing a
timestamp; the aggregator succeeds and the theorem applies. -/
theorem c3_aggregator_output_sorted_stable_witness :
    fetchContactHistoryFrom mockLookup404
        [{ id := "b", dateAdded := 10 }, { id := "a", dateAdded := 5 },
         { id := "c", dateAdded := 10 }]
      = .ok (sortMessages
        [{ id := "b", dateAdded := 10 }, { id := "a", dateAdded := 5 },
         { id := "c", dateAdded := 10 }]) ∧
    (List.Pairwise (fun a b => a.dateAdded ≤ b.dateAdded)
        (sortMessages
          [{ id := "b", dateAdded := 10 }, { id := "a", dateAdded := 5 },
           { id := "c", dateAdded := 10 }]) ∧
      ∃ mid, attachTranscriptions mockLookup404
          [{ id := "b", dateAdded := 10 }, { id := "a", dateAdded := 5 },
           { id := "c", dateAdded := 10 }] = .ok mid ∧
        sortMessages
          [{ id := "b", dateAdded := 10 }, { id := "a", dateAdded := 5 },
           { id := "c", dateAdded := 10 }] = sortMessages mid ∧
        (sortMessages
          [{ id := "b", dateAdded := 10 }, { id := "a", dateAdded := 5 },
           { id := "c", dateAdded := 10 }]).Perm mid ∧
        ∀ t : Int, (sortMessages
            [{ id := "b", dateAdded := 10 }, { id := "a", dateAdded := 5 },
             { id := "c", dateAdded := 10 }]).filter (fun m => m.dateAdded == t)
          = mid.filter (fun m => m.dateAdded == t)) :=
  ⟨rfl, c3_aggregator_output_sorted_stable mockLookup404 _ _ rfl⟩

/-! ## C9 — aggregation touches only the transcription field -/

/-- Per-message frame fact: a successful stage-3 step either returns the
message unchanged or — only for a completed call with a direction —
the same message with a transcription attached. -/
theorem attachOne_frame (lookup : String → Except ApiErr Recording)
    (a b : Message) (h : attachOne lookup a = .ok b) :
    b = a ∨ (isCompletedCall a = true ∧
      ∃ t, b = { a with transcription := some t }) := by
  unfold attachOne at h
  by_cases hc : isCompletedCall a
  · rw [if_pos hc] at h
    cases hft : fetchTranscription (lookup a.id) with
    | error e => rw [hft] at h; cases h
    | ok o =>
      rw [hft] at h
      cases o with
      | none => simp only [Except.ok.injEq] at h; exact .inl h.symm
      | some t =>
        simp only [Except.ok.injEq] at h
        exact .inr ⟨hc, t, h.symm⟩
  · rw [if_neg hc] at h
    simp only [Except.ok.injEq] at h
    exact .inl h.symm

/-- C9: pointwise over the accumulated sequence, the only mutation the
aggregator performs is attaching a transcription field, and only to
messages that are completed calls with a direction set; every other
field of every message is exactly as fetched. -/
theorem c9_aggregation_frame
    (lookup : String → Except ApiErr Recording) (msgs out : List Message)
    (h : attachTranscriptions lookup msgs = .ok out) :
    List.Forall₂ (fun a b => b = a ∨ (isCompletedCall a = true ∧
      ∃ t, b = { a with transcription := some t })) msgs out := by
  induction msgs generalizing out with
  | nil =>
    simp only [attachTranscriptions, Except.ok.injEq] at h
    subst h
    exact .nil
  | cons a rest ih =>
    unfold attachTranscriptions at h
    cases ha : attachOne lookup a with
    | error e => rw [ha] at h; cases h
    | ok a2 =>
      rw [ha] at h
      cases hr : attachTranscriptions lookup rest with
      | error e => rw [hr] at h; cases h
      | ok rest2 =>
        rw [hr] at h
        simp only [Except.ok.injEq] at h
        subst h
        exact .cons (attachOne_frame lookup a a2 ha) (ih rest2 hr)

/-- C9 witness: a two-message sequence — a completed call whose lookup
succeeds and a plain SMS — satisfies the frame relation: the call gains
only a transcription, the SMS is untouched. -/
theorem c9_aggregation_frame_witness :
    attachTranscriptions mockLookupHello
        [mockCallMsg, { id := "sms-1", dateAdded := 7, type := some "TYPE_SMS" }]
      = .ok [{ mockCallMsg with transcription := some "hello" },
             { id := "sms-1", dateAdded := 7, type := some "TYPE_SMS" }] ∧
    List.Forall₂ (fun a b => b = a ∨ (isCompletedCall a = true ∧
        ∃ t, b = { a with transcription := some t }))
      [mockCallMsg, { id := "sms-1", dateAdded := 7, type := some "TYPE_SMS" }]
      [{ mockCallMsg with transcription := some "hello" },
       { id := "sms-1", dateAdded := 7, type := some "TYPE_SMS" }] :=
  ⟨rfl, c9_aggregation_frame mockLookupHello _ _ rfl⟩

/-! ## C10 — successful-but-empty transcription responses -/

/-- C10: a successful transcription lookup whose response carries a
falsy transcription value yields `null` from `fetchTranscription` —
the same output as a not-found (404/422) failure — and the call message
is left without a transcription field. -/
theorem c10_falsy_transcription_indistinguishable
    (lookup : String → Except ApiErr Recording) (rec : Recording)
    (m : Message) (hfalsy : truthyS rec.transcription = false) :
    fetchTranscription (.ok rec) = .ok none ∧
    (∀ e : ApiErr, (e.status == some 404 || e.status == some 422) = true →
      fetchTranscription (.ok rec) = fetchTranscription (.error e)) ∧
    (isCompletedCall m = true → lookup m.id = .ok rec →
      attachOne lookup m = .ok m) := by
  have h1 : fetchTranscription (.ok rec) = .ok none := by
    simp [fetchTranscription, jsNorm, hfalsy]
  refine ⟨h1, ?_, ?_⟩
  · intro e he
    rw [h1]
    simp [fetchTranscription, he]
  · intro hc hl
    simp [attachOne, hc, hl, h1]

/-- C10 witness: an empty-string transcription response on the concrete
call message: `fetchTranscription` returns absent, matches the 404
outcome, and the message keeps no transcription field. -/
theorem c10_falsy_transcription_indistinguishable_witness :
    truthyS ({ transcription := some "" } : Recording).transcription = false ∧
    fetchTranscription (.ok ({ transcription := some "" } : Recording)) = .ok none ∧
    fetchTranscription (.ok ({ transcription := some "" } : Recording))
      = fetchTranscription (.error { status := some 404, message := "" }) ∧
    attachOne mockLookupEmpty mockCallMsg = .ok mockCallMsg := by
  have h := c10_falsy_transcription_indistinguishable mockLookupEmpty
    { transcription := some "" } mockCallMsg (by decide)
  exact ⟨by decide, h.1,
    h.2.1 { status := some 404, message := "" } (by decide),
    h.2.2 (by decide) rfl⟩

/-! ## C4, C5 — date-range filter -/

/-- The two sequential filter passes of `runExport` equal one pass with
the combined retention predicate. -/
theorem filterByDateRange_eq_filter (range : DateRange) (msgs : List Message) :
    filterByDateRange range msgs = msgs.filter (fun m => inDateRange range m) := by
  rcases range with ⟨sd, ed⟩
  cases sd <;> cases ed <;>
    simp [filterByDateRange, inDateRange, List.filter_filter, Bool.and_comm]

/-- C4: a message survives the date filter iff its timestamp is at or
after `startDate` 00:00:00.000 (when present) and at or before
`endDate` 23:59:59.999 (when present), each bound applied independently
and an absent bound imposing no constraint; the filter only removes
elements (it is a sublist of the input), so an input ascending by
timestamp stays ascending. -/
theorem c4_date_filter_characterisation (range : DateRange)
    (msgs : List Message) :
    filterByDateRange range msgs = msgs.filter (fun m => inDateRange range m) ∧
    (∀ m, m ∈ filterByDateRange range msgs ↔
      m ∈ msgs ∧ inDateRange range m = true) ∧
    (filterByDateRange range msgs).Sublist msgs ∧
    (List.Pairwise (fun a b => a.dateAdded ≤ b.dateAdded) msgs →
      List.Pairwise (fun a b => a.dateAdded ≤ b.dateAdded)
        (filterByDateRange range msgs)) := by
  have he := filterByDateRange_eq_filter range msgs
  refine ⟨he, ?_, ?_, ?_⟩
  · intro m
    rw [he, List.mem_filter]
  · rw [he]
    exact List.filter_sublist msgs
  · intro hs
    rw [he]
    exact hs.filter _

/-- C4 witness: with `startDate = endDate = day 1`, a message before the
day's 00:00:00.000 is dropped, one inside the day survives, and the
filtered output is still ascending. -/
theorem c4_date_filter_characterisation_witness :
    filterByDateRange { startDate := some 1, endDate := some 1 }
        [{ id := "a", dateAdded := 0 }, { id := "b", dateAdded := 86400005 }]
      = [{ id := "a", dateAdded := 0 },
         ({ id := "b", dateAdded := 86400005 } : Message)].filter
          (fun m => inDateRange { startDate := some 1, endDate := some 1 } m) ∧
    List.Pairwise (fun a b => a.dateAdded ≤ b.dateAdded)
      (filterByDateRange { startDate := some 1, endDate := some 1 }
        [{ id := "a", dateAdded := 0 }, { id := "b", dateAdded := 86400005 }]) ∧
    filterByDateRange { startDate := some 1, endDate := some 1 }
        [{ id := "a", dateAdded := 0 }, { id := "b", dateAdded := 86400005 }]
      = [{ id := "b", dateAdded := 86400005 }] := by
  have h := c4_date_filter_characterisation
    { startDate := some 1, endDate := some 1 }
    [{ id := "a", dateAdded := 0 }, { id := "b", dateAdded := 86400005 }]
  exact ⟨h.1, h.2.2.2 (by decide), by decide⟩

/-- C5: the date filter is idempotent — filtering an already-filtered
sequence with the same bounds returns it unchanged. -/
theorem c5_date_filter_idempotent (range : DateRange) (msgs : List Message) :
    filterByDateRange range (filterByDateRange range msgs)
      = filterByDateRange range msgs := by
  rw [filterByDateRange_eq_filter, filterByDateRange_eq_filter,
    List.filter_filter]
  simp [Bool.and_self]

/-! ## C8 — job reaping -/

/-- Unlinking never creates files. -/
theorem reapFile_subset (fs : List String) (o : Option String) (p : String)
    (hp : p ∈ reapFile fs o) : p ∈ fs := by
  cases o with
  | none => exact hp
  | some q =>
    simp only [reapFile] at hp
    by_cases hq : (q != "" && fs.contains q) = true
    · rw [if_pos hq] at hp
      exact (List.mem_filter.mp hp).1
    · rw [if_neg hq] at hp
      exact hp

/-- After unlinking a truthy path it is gone from the file set. -/
theorem reapFile_removes (fs : List String) (p : String) (hp : p ≠ "") :
    p ∉ reapFile fs (some p) := by
  simp only [reapFile]
  by_cases hq : (p != "" && fs.contains p) = true
  · rw [if_pos hq]
    intro hc
    have := (List.mem_filter.mp hc).2
    simp at this
  · rw [if_neg hq]
    intro hc
    apply hq
    simp [hp, hc]

/-- The reaper never creates files: the post-sweep file set is contained
in the pre-sweep one. -/
theorem cleanupJobs_fs_subset (now : Int) :
    ∀ (jobs : List Job) (fs : List String) (p : String),
      p ∈ (cleanupJobs now jobs fs).2 → p ∈ fs := by
  intro jobs
  induction jobs with
  | nil => intro fs p hp; simpa [cleanupJobs] using hp
  | cons j rest ih =>
    intro fs p hp
    unfold cleanupJobs at hp
    by_cases he : now - j.createdAt > JOB_TTL_MS
    · rw [if_pos he] at hp
      exact reapFile_subset fs j.filePath p (ih _ p hp)
    · rw [if_neg he] at hp
      exact ih fs p hp

/-- The reaper deletes the artifact of every expired job with a truthy
path. -/
theorem cleanupJobs_fs_removes (now : Int) :
    ∀ (jobs : List Job) (fs : List String) (j : Job) (p : String),
      j ∈ jobs → now - j.createdAt > JOB_TTL_MS →
      j.filePath = some p → p ≠ "" →
      p ∉ (cleanupJobs now jobs fs).2 := by
  intro jobs
  induction jobs with
  | nil => intro fs j p hmem; cases hmem
  | cons a rest ih =>
    intro fs j p hmem hexp hpath hp
    rcases List.mem_cons.mp hmem with rfl | hmem2
    · unfold cleanupJobs
      rw [if_pos hexp, hpath]
      intro hc
      exact reapFile_removes fs p hp (cleanupJobs_fs_subset now rest _ p hc)
    · unfold cleanupJobs
      by_cases he : now - a.createdAt > JOB_TTL_MS
      · rw [if_pos he]
        exact ih _ j p hmem2 hexp hpath hp
      · rw [if_neg he]
        exact ih fs j p hmem2 hexp hpath hp

/-- Surviving job records all come from the pre-sweep registry. -/
theorem cleanupJobs_jobs_subset (now : Int) :
    ∀ (jobs : List Job) (fs : List String) (x : Job),
      x ∈ (cleanupJobs now jobs fs).1 → x ∈ jobs := by
  intro jobs
  induction jobs with
  | nil => intro fs x hx; simp [cleanupJobs] at hx
  | cons j rest ih =>
    intro fs x hx
    unfold cleanupJobs at hx
    by_cases he : now - j.createdAt > JOB_TTL_MS
    · rw [if_pos he] at hx
      exact List.mem_cons_of_mem j (ih _ x hx)
    · rw [if_neg he] at hx
      rcases List.mem_cons.mp hx with rfl | hx2
      · exact List.mem_cons_self x rest
      · exact List.mem_cons_of_mem j (ih fs x hx2)

/-- After the sweep no record with an expired job's id remains (ids are
unique in the registry, as in a `Map`). -/
theorem cleanupJobs_removes_record (now : Int) :
    ∀ (jobs : List Job) (fs : List String) (j : Job),
      j ∈ jobs → now - j.createdAt > JOB_TTL_MS →
      (jobs.map Job.id).Nodup →
      (cleanupJobs now jobs fs).1.find? (fun x => x.id == j.id) = none := by
  intro jobs
  induction jobs with
  | nil => intro fs j hmem; cases hmem
  | cons a rest ih =>
    intro fs j hmem hexp hnodup
    have hnodup2 : (a.id :: rest.map Job.id).Nodup := by simpa using hnodup
    have hnd := List.nodup_cons.mp hnodup2
    rcases List.mem_cons.mp hmem with rfl | hmem2
    · unfold cleanupJobs
      rw [if_pos hexp]
      apply List.find?_eq_none.mpr
      intro x hx
      have hxr := cleanupJobs_jobs_subset now rest _ x hx
      have hxid : x.id ∈ rest.map Job.id := List.mem_map_of_mem Job.id hxr
      intro hbeq
      have : x.id = j.id := by simpa using hbeq
      exact hnd.1 (this ▸ hxid)
    · have hne : a.id ≠ j.id := by
        intro hcontra
        have : j.id ∈ rest.map Job.id := List.mem_map_of_mem Job.id hmem2
        exact hnd.1 (hcontra ▸ this)
      unfold cleanupJobs
      by_cases he : now - a.createdAt > JOB_TTL_MS
      · rw [if_pos he]
        exact ih _ j hmem2 hexp hnd.2
      · rw [if_neg he]
        have hrec := ih fs j hmem2 hexp hnd.2
        have hstep : (a :: (cleanupJobs now rest fs).1).find?
            (fun x => x.id == j.id) = none := by
          rw [List.find?_cons_of_neg, hrec]
          simp [hne]
        simpa using hstep

/-- C8: after a reaper sweep, every job whose age exceeds the one-hour
retention window is removed regardless of its status (including
`processing`): its artifact path no longer exists in the file set, and a
status query for its id reports a 404 not-found condition. -/
theorem c8_reaper_removes_expired (now : Int) (jobs : List Job)
    (fs : List String) (j : Job) (p : String)
    (hmem : j ∈ jobs) (hexp : now - j.createdAt > JOB_TTL_MS)
    (hnodup : (jobs.map Job.id).Nodup)
    (hpath : j.filePath = some p) (hp : p ≠ "") :
    getExportStatus (cleanupJobs now jobs fs).1 j.id = .error 404 ∧
    p ∉ (cleanupJobs now jobs fs).2 := by
  constructor
  · unfold getExportStatus
    rw [cleanupJobs_removes_record now jobs fs j hmem hexp hnodup]
  · exact cleanupJobs_fs_removes now jobs fs j p hmem hexp hpath hp

/-- C8 witness: a one-hour-old `processing` job with an on-disk artifact
is swept: status queries 404 and the file is gone. -/
theorem c8_reaper_removes_expired_witness :
    (({ id := "job-old", status := "processing", createdAt := 0,
        filePath := some "/data/exports/old.pdf" } : Job) ∈
      [({ id := "job-old", status := "processing", createdAt := 0,
          filePath := some "/data/exports/old.pdf" } : Job)]) ∧
    ((3600001 : Int) - 0 > JOB_TTL_MS) ∧
    (getExportStatus
        (cleanupJobs 3600001
          [{ id := "job-old", status := "processing", createdAt := 0,
             filePath := some "/data/exports/old.pdf" }]
          ["/data/exports/old.pdf"]).1 "job-old" = .error 404 ∧
      "/data/exports/old.pdf" ∉
        (cleanupJobs 3600001
          [{ id := "job-old", status := "processing", createdAt := 0,
             filePath := some "/data/exports/old.pdf" }]
          ["/data/exports/old.pdf"]).2) :=
  ⟨by decide, by decide,
   c8_reaper_removes_expired 3600001
     [{ id := "job-old", status := "processing", createdAt := 0,
        filePath := some "/data/exports/old.pdf" }]
     ["/data/exports/old.pdf"]
     { id := "job-old", status := "processing", createdAt := 0,
       filePath := some "/data/exports/old.pdf" }
     "/data/exports/old.pdf"
     (by decide) (by decide) (by decide) (by decide) (by decide)⟩

/-! ## C6, C7 — footer pass and cover-only rendering -/

/-- Folding page-content writes never touches completed pages. -/
theorem foldl_done_eq {α : Type} (f : Doc → α → Doc)
    (hf : ∀ (d : Doc) (a : α), (f d a).done = d.done) :
    ∀ (l : List α) (d : Doc), (l.foldl f d).done = d.done := by
  intro l
  induction l with
  | nil => intro d; rfl
  | cons a rest ih =>
    intro d
    rw [List.foldl_cons, ih, hf]

/-- Attachment lines are written to the current page only. -/
theorem renderAttachments_done (env : RenderEnv) (m : Message) (d : Doc) :
    (renderAttachments env m d).done = d.done := by
  simp only [renderAttachments]
  split
  · rfl
  · refine (foldl_done_eq _ ?_ _ _).trans rfl
    intro d a
    rfl

/-- Text-channel rendering never starts a page. -/
theorem renderTextMessage_done (env : RenderEnv) (m : Message) (d : Doc) :
    (renderTextMessage env m d).done = d.done := by
  simp only [renderTextMessage]
  split
  · rfl
  · rw [renderAttachments_done]
    rfl

/-- Email rendering never starts a page. -/
theorem renderEmailMessage_done (env : RenderEnv) (m : Message) (d : Doc) :
    (renderEmailMessage env m d).done = d.done := by
  simp only [renderEmailMessage]
  rw [renderAttachments_done]
  split_ifs <;> rfl

/-- Call rendering never starts a page. -/
theorem renderCallMessage_done (env : RenderEnv) (m : Message) (d : Doc) :
    (renderCallMessage env m d).done = d.done := by
  simp only [renderCallMessage]
  split_ifs <;> rfl

/-- `checkPageBreak` can only add completed pages. -/
theorem checkPageBreak_done_le (d : Doc) (n : Nat) :
    d.done.length ≤ (checkPageBreak d n).done.length := by
  unfold checkPageBreak
  split
  · simp [Doc.addPage]
  · exact le_refl _

/-- A message block can only add completed pages. -/
theorem renderMessage_done_le (env : RenderEnv) (m : Message) (i : Nat)
    (d : Doc) :
    d.done.length ≤ (renderMessage env m i d).done.length := by
  simp only [renderMessage, Doc.text, Doc.moveDown, apply_ite Doc.done,
    renderCallMessage_done, renderEmailMessage_done, renderTextMessage_done,
    ite_self]
  exact checkPageBreak_done_le d _

/-- The message flow can only add completed pages. -/
theorem renderMessages_done_le (env : RenderEnv) :
    ∀ (msgs : List Message) (i : Nat) (d : Doc),
      d.done.length ≤ (renderMessages env msgs i d).done.length := by
  intro msgs
  induction msgs with
  | nil => intro i d; exact le_refl _
  | cons m rest ih =>
    intro i d
    exact le_trans (renderMessage_done_le env m i d) (ih (i + 1) _)

/-- The cover page render stays on the first page. -/
theorem renderCoverPage_done (env : RenderEnv) (contact : Contact)
    (messages : List Message) (d : Doc) :
    (renderCoverPage env contact messages d).done = d.done := by
  simp only [renderCoverPage, coverStatsData, List.foldl_cons, List.foldl_nil,
    Doc.text, Doc.moveDown, apply_ite Doc.done, ite_self]

/-- The footer pass keeps the page count. -/
theorem addPageNumbersGo_length (total : Nat) (ed : String) :
    ∀ (pages : List (List String)) (i : Nat),
      (addPageNumbersGo total ed i pages).length = pages.length := by
  intro pages
  induction pages with
  | nil => intro i; rfl
  | cons c rest ih =>
    intro i
    simp [addPageNumbersGo, ih]

/-- Footer of page `k` of the indexed walk started at `i`: absent exactly
on absolute index 0, else "Page (abs+1) of total". -/
theorem addPageNumbersGo_footer (total : Nat) (ed : String) :
    ∀ (pages : List (List String)) (i k : Nat)
      (hk : k < (addPageNumbersGo total ed i pages).length),
      ((addPageNumbersGo total ed i pages)[k]).footer =
        if i + k = 0 then none
        else some (footerText (i + k + 1) total ed) := by
  intro pages
  induction pages with
  | nil =>
    intro i k hk
    simp [addPageNumbersGo] at hk
  | cons c rest ih =>
    intro i k hk
    cases k with
    | zero =>
      by_cases hi : i = 0 <;>
        simp [addPageNumbersGo, hi]
    | succ k =>
      have hk2 : k < (addPageNumbersGo total ed (i + 1) rest).length := by
        simpa [addPageNumbersGo] using hk
      have := ih (i + 1) k hk2
      have harith : i + 1 + k = i + (k + 1) := by omega
      simp only [addPageNumbersGo, List.getElem_cons_succ]
      rw [this, harith]

/-- C6: whenever at least one message is rendered, the document has a
cover page plus at least one body page; the cover carries no footer, and
body page `i` (0-based) carries exactly the footer
"Page (i+1) of N · export metadata" with `N` the total page count — so
the page numbers increment by one per page. -/
theorem c6_body_page_footers (env : RenderEnv) (contact : Contact)
    (messages : List Message) (hne : messages ≠ []) :
    2 ≤ (generatePDF env contact messages).length ∧
    ∀ (i : Nat) (hi : i < (generatePDF env contact messages).length),
      ((generatePDF env contact messages)[i]).footer =
        if i = 0 then none
        else some (footerText (i + 1)
          (generatePDF env contact messages).length env.exportDate) := by
  have hpos : 0 < messages.length := List.length_pos.mpr hne
  have hgen : generatePDF env contact messages
      = addPageNumbers env (renderMessages env messages 0
          (renderCoverPage env contact messages Doc.new).addPage).pages := by
    simp only [generatePDF]
    rw [if_pos hpos]
  have hone : 1 ≤ (renderMessages env messages 0
      (renderCoverPage env contact messages Doc.new).addPage).done.length := by
    refine le_trans ?_ (renderMessages_done_le env messages 0 _)
    simp [Doc.addPage]
  have hlen : (addPageNumbers env (renderMessages env messages 0
      (renderCoverPage env contact messages Doc.new).addPage).pages).length
      = (renderMessages env messages 0
          (renderCoverPage env contact messages Doc.new).addPage).done.length
        + 1 := by
    unfold addPageNumbers
    rw [addPageNumbersGo_length]
    simp [Doc.pages]
  constructor
  · rw [hgen, hlen]
    omega
  · rw [hgen]
    intro i hi
    unfold addPageNumbers at hi ⊢
    rw [addPageNumbersGo_footer _ _ _ 0 i hi]
    simp [addPageNumbersGo_length]

/-- C6 witness: one SMS message under the concrete metrics environment:
the document has two pages, the cover has no footer, and the single
body page reads "Page 2 of 2". -/
theorem c6_body_page_footers_witness :
    ([({ id := "m1", dateAdded := 3, type := some "TYPE_SMS",
         body := some "hi" } : Message)] ≠ ([] : List Message)) ∧
    2 ≤ (generatePDF mockEnv { name := some "Jane Doe" }
          [{ id := "m1", dateAdded := 3, type := some "TYPE_SMS",
             body := some "hi" }]).length ∧
    ∀ (i : Nat) (hi : i < (generatePDF mockEnv { name := some "Jane Doe" }
          [{ id := "m1", dateAdded := 3, type := some "TYPE_SMS",
             body := some "hi" }]).length),
      ((generatePDF mockEnv { name := some "Jane Doe" }
          [{ id := "m1", dateAdded := 3, type := some "TYPE_SMS",
             body := some "hi" }])[i]).footer =
        if i = 0 then none
        else some (footerText (i + 1)
          (generatePDF mockEnv { name := some "Jane Doe" }
            [{ id := "m1", dateAdded := 3, type := some "TYPE_SMS",
               body := some "hi" }]).length mockEnv.exportDate) :=
  ⟨by simp,
   (c6_body_page_footers mockEnv { name := some "Jane Doe" }
     [{ id := "m1", dateAdded := 3, type := some "TYPE_SMS",
        body := some "hi" }] (by simp)).1,
   (c6_body_page_footers mockEnv { name := some "Jane Doe" }
     [{ id := "m1", dateAdded := 3, type := some "TYPE_SMS",
        body := some "hi" }] (by simp)).2⟩

/-- C7: rendering an empty message sequence yields a one-page document
(the cover only, no footer anywhere), the statistics report date range
"N/A" and an empty channel list, and the cover's stats block shows a
total message count of 0. -/
theorem c7_empty_render_cover_only (env : RenderEnv) (contact : Contact) :
    (generatePDF env contact []).length = 1 ∧
    (∀ p ∈ generatePDF env contact [], p.footer = none) ∧
    getMessageStats env [] = { dateRange := "N/A", channels := [] } ∧
    coverStatsData env []
      = [("Total Messages", "0"), ("Date Range", "N/A"),
         ("Export Date", env.exportDate)] := by
  have hgen : generatePDF env contact []
      = addPageNumbers env (renderCoverPage env contact [] Doc.new).pages := by
    simp [generatePDF]
  have hcov : (renderCoverPage env contact [] Doc.new).done = [] := by
    rw [renderCoverPage_done]
    rfl
  have hpages : (renderCoverPage env contact [] Doc.new).pages
      = [(renderCoverPage env contact [] Doc.new).cur] := by
    simp [Doc.pages, hcov]
  refine ⟨?_, ?_, rfl, ?_⟩
  · rw [hgen, hpages]
    rfl
  · intro p hp
    rw [hgen, hpages] at hp
    simp [addPageNumbers, addPageNumbersGo] at hp
    simp [hp]
  · simp [coverStatsData, getMessageStats, toLocaleStringNat]
    rfl

/-- C6 counterexample: rendering one SMS with the first revision of the
PDF module yields a two-page document in which no page — in particular
no body page — carries any "Page X of N" footer line: that revision has
no footer pass at all. -/
theorem c6_first_revision_no_footers_counterexample :
    (generatePDFV1 mockEnv { name := some "Jane Doe" }
        [{ id := "m1", dateAdded := 3, type := some "TYPE_SMS",
           body := some "hi" }]).length = 2 ∧
    ∀ page ∈ generatePDFV1 mockEnv { name := some "Jane Doe" }
        [{ id := "m1", dateAdded := 3, type := some "TYPE_SMS",
           body := some "hi" }],
      ∀ s ∈ page, (s.toList.take 5 == "Page ".toList) = false := by
  constructor
  · decide
  · decide

/-- C7 witness: the theorem applied to the concrete environment and
contact. -/
theorem c7_empty_render_cover_only_witness :
    (generatePDF mockEnv { name := some "Jane Doe" } []).length = 1 ∧
    (∀ p ∈ generatePDF mockEnv { name := some "Jane Doe" } [],
      p.footer = none) ∧
    getMessageStats mockEnv [] = { dateRange := "N/A", channels := [] } ∧
    coverStatsData mockEnv []
      = [("Total Messages", "0"), ("Date Range", "N/A"),
         ("Export Date", mockEnv.exportDate)] :=
  c7_empty_render_cover_only mockEnv { name := some "Jane Doe" }
